import Mathlib

/-!
Verification of the planetas software renderer (Rust).

Numeric model: `f32` values are embedded as exact rationals (`ℚ`); machine
`u32` arithmetic is `Nat` arithmetic reduced `% 2^32` where the source can
overflow.  The transcendental `f32` operations (`sin`, `cos`, `tan`, `sqrt`,
`powf`) have irrational values, so the embedding is parametric in their
interpretation: every definition that needs them takes a `RealOps` bundle,
and no theorem below depends on the values those operations return.
-/

namespace Planetas

/-- Interpretations of the transcendental `f32` operations used by the
renderer.  The source calls `f32::sin/cos/tan/sqrt/powf`; their exact values
are irrational, so definitions are parametric in this bundle. -/
structure RealOps where
  sin : ℚ → ℚ
  cos : ℚ → ℚ
  tan : ℚ → ℚ
  sqrt : ℚ → ℚ
  powf : ℚ → ℚ → ℚ

/-- A trivial interpretation (everything returns 0), used to instantiate
witnesses on concrete inputs. -/
def opsZero : RealOps where
  sin := fun _ => 0
  cos := fun _ => 0
  tan := fun _ => 0
  sqrt := fun _ => 0
  powf := fun _ _ => 0

/-- Truncation toward zero, the rounding of Rust `as` casts and `f32::fract`. -/
def truncQ (q : ℚ) : ℤ :=
  if 0 ≤ q then ⌊q⌋ else ⌈q⌉

/-- `f32::fract`: `x - x.trunc()`. -/
def fractQ (q : ℚ) : ℚ :=
  q - (truncQ q : ℚ)

/-- `f32::abs`. -/
def absQ (q : ℚ) : ℚ :=
  if q < 0 then -q else q

theorem absQ_eq_abs (q : ℚ) : absQ q = |q| := by
  unfold absQ
  rcases lt_or_le q 0 with h | h
  · rw [if_pos h, abs_of_neg h]
  · rw [if_neg (not_lt.2 h), abs_of_nonneg h]

/-- Rust `f32::clamp(lo, hi)` (requires `lo ≤ hi`; returns `lo` when below,
`hi` when above, the value itself otherwise). -/
def clampQ (q lo hi : ℚ) : ℚ :=
  min hi (max lo q)

/-- Modelled from the spec: `Vector3 {x, y, z}` with immutable value
semantics (src/vector.rs is referenced by `mod vector;` but is not present
under src/; §3 of the spec describes its data and operations). -/
structure Vector3 where
  x : ℚ
  y : ℚ
  z : ℚ
deriving DecidableEq

/-- Modelled from the spec: componentwise vector addition. -/
def Vector3.add (a b : Vector3) : Vector3 :=
  ⟨a.x + b.x, a.y + b.y, a.z + b.z⟩

instance : Add Vector3 := ⟨Vector3.add⟩

/-- Modelled from the spec: componentwise vector subtraction. -/
def Vector3.sub (a b : Vector3) : Vector3 :=
  ⟨a.x - b.x, a.y - b.y, a.z - b.z⟩

instance : Sub Vector3 := ⟨Vector3.sub⟩

/-- Modelled from the spec: scalar multiplication `v * s`. -/
def Vector3.scale (a : Vector3) (s : ℚ) : Vector3 :=
  ⟨a.x * s, a.y * s, a.z * s⟩

/-- Modelled from the spec: dot product. -/
def Vector3.dot (a b : Vector3) : ℚ :=
  a.x * b.x + a.y * b.y + a.z * b.z

/-- Modelled from the spec: vector length `sqrt (v · v)`. -/
def Vector3.length (ops : RealOps) (a : Vector3) : ℚ :=
  ops.sqrt (a.dot a)

/-- Modelled from the spec: `normalize` divides a vector by its length
(`ℚ` division is total, so the zero-length case yields the zero vector). -/
def Vector3.normalize (ops : RealOps) (a : Vector3) : Vector3 :=
  let len := a.length ops
  ⟨a.x / len, a.y / len, a.z / len⟩

/-! ## Matrix (src/matrix.rs) -/

/-- `Matrix { data: [[f32; 4]; 4] }` (src/matrix.rs): field `mIJ` embeds
`data[I][J]`. -/
structure Matrix where
  m00 : ℚ
  m01 : ℚ
  m02 : ℚ
  m03 : ℚ
  m10 : ℚ
  m11 : ℚ
  m12 : ℚ
  m13 : ℚ
  m20 : ℚ
  m21 : ℚ
  m22 : ℚ
  m23 : ℚ
  m30 : ℚ
  m31 : ℚ
  m32 : ℚ
  m33 : ℚ
deriving DecidableEq

/-- `Matrix::new` (src/matrix.rs lines 20-34). -/
def Matrix.new (m00 m01 m02 m03 m10 m11 m12 m13 m20 m21 m22 m23 m30 m31 m32 m33 : ℚ) :
    Matrix :=
  ⟨m00, m01, m02, m03, m10, m11, m12, m13, m20, m21, m22, m23, m30, m31, m32, m33⟩

/-- The `x` component computed by `Matrix::transform_vector` before the
homogeneous divide (src/matrix.rs line 52). -/
def Matrix.tx (m : Matrix) (v : Vector3) : ℚ :=
  m.m00 * v.x + m.m01 * v.y + m.m02 * v.z + m.m03

/-- The `y` component before the homogeneous divide (src/matrix.rs line 53). -/
def Matrix.ty (m : Matrix) (v : Vector3) : ℚ :=
  m.m10 * v.x + m.m11 * v.y + m.m12 * v.z + m.m13

/-- The `z` component before the homogeneous divide (src/matrix.rs line 54). -/
def Matrix.tz (m : Matrix) (v : Vector3) : ℚ :=
  m.m20 * v.x + m.m21 * v.y + m.m22 * v.z + m.m23

/-- The homogeneous divisor `w` (src/matrix.rs line 55). -/
def Matrix.tw (m : Matrix) (v : Vector3) : ℚ :=
  m.m30 * v.x + m.m31 * v.y + m.m32 * v.z + m.m33

/-- `Matrix::transform_vector` (src/matrix.rs lines 51-62): divides by the
homogeneous coordinate `w` when `w != 0.0`, otherwise returns the un-divided
components. -/
def Matrix.transform_vector (m : Matrix) (v : Vector3) : Vector3 :=
  let x := m.tx v
  let y := m.ty v
  let z := m.tz v
  let w := m.tw v
  if w ≠ 0 then ⟨x / w, y / w, z / w⟩ else ⟨x, y, z⟩

/-! ## ShaderColor (src/shaders.rs) and fragment data (src/fragment.rs) -/

/-- `ShaderColor { r, g, b, a: f32 }` (src/shaders.rs). -/
structure ShaderColor where
  r : ℚ
  g : ℚ
  b : ℚ
  a : ℚ
deriving DecidableEq

/-- `ShaderColor::new` (src/shaders.rs). -/
def ShaderColor.new (r g b a : ℚ) : ShaderColor :=
  ⟨r, g, b, a⟩

/-- `ShaderColor::from_rgb` (src/shaders.rs): 8-bit channels scaled to `[0,1]`,
alpha 1. -/
def ShaderColor.from_rgb (r g b : ℕ) : ShaderColor :=
  ⟨(r : ℚ) / 255, (g : ℚ) / 255, (b : ℚ) / 255, 1⟩

/-- `TransformedVertex` (src/fragment.rs lines 44-51). -/
structure TransformedVertex where
  screen_position : Vector3
  world_position : Vector3
  normal : Vector3
  color : ShaderColor
  uv : ℚ × ℚ
deriving DecidableEq

/-- `Fragment` (src/fragment.rs lines 5-12). -/
structure Fragment where
  position : Vector3
  color : ShaderColor
  world_position : Vector3
  normal : Vector3
  depth : ℚ
deriving DecidableEq

/-- `Fragment::new_with_data` (src/fragment.rs lines 25-40). -/
def Fragment.new_with_data (x y : ℚ) (color : ShaderColor) (depth : ℚ)
    (world_pos : Vector3) (normal : Vector3) : Fragment :=
  { position := ⟨x, y, depth⟩
    color := color
    world_position := world_pos
    normal := normal
    depth := depth }

/-- The signed-area expression computed by `barycentric_coordinates`
(src/fragment.rs line 70). -/
def triArea (a b c : TransformedVertex) : ℚ :=
  (b.screen_position.y - c.screen_position.y) * (a.screen_position.x - c.screen_position.x) +
    (c.screen_position.x - b.screen_position.x) * (a.screen_position.y - c.screen_position.y)

/-- `barycentric_coordinates` (src/fragment.rs lines 55-83): returns the
sentinel `(-1, -1, -1)` when `|area| < 1e-10`, otherwise the weights
`(w, v, 1 - w - v)`. -/
def barycentric_coordinates (px py : ℚ) (a b c : TransformedVertex) : ℚ × ℚ × ℚ :=
  let a_x := a.screen_position.x
  let b_x := b.screen_position.x
  let c_x := c.screen_position.x
  let a_y := a.screen_position.y
  let b_y := b.screen_position.y
  let c_y := c.screen_position.y
  let area := triArea a b c
  if absQ area < 1 / 10 ^ 10 then (-1, -1, -1)
  else
    let w := ((b_y - c_y) * (px - c_x) + (c_x - b_x) * (py - c_y)) / area
    let v := ((c_y - a_y) * (px - c_x) + (a_x - c_x) * (py - c_y)) / area
    (w, v, 1 - w - v)

/-- Rust `for i in lo..=hi` over signed integers: the inclusive range as a
list (empty when `hi < lo`). -/
def intRangeIncl (lo hi : ℤ) : List ℤ :=
  (List.range (hi + 1 - lo).toNat).map (fun (k : ℕ) => lo + (k : ℤ))

/-- `triangle` (src/fragment.rs lines 87-152): walks the integer bounding box
of the three screen positions, computes barycentric weights at every pixel
center `(x+0.5, y+0.5)`, and emits an interpolated fragment whenever all
three weights are `≥ 0`.  `f32::floor/ceil` followed by `as i32` is modelled
as `⌊·⌋`/`⌈·⌉` (the cast saturates only outside the `i32` range). -/
def triangle (ops : RealOps) (v1 v2 v3 : TransformedVertex) : List Fragment :=
  let a_x := v1.screen_position.x
  let b_x := v2.screen_position.x
  let c_x := v3.screen_position.x
  let a_y := v1.screen_position.y
  let b_y := v2.screen_position.y
  let c_y := v3.screen_position.y
  let min_x : ℤ := ⌊min (min a_x b_x) c_x⌋
  let min_y : ℤ := ⌊min (min a_y b_y) c_y⌋
  let max_x : ℤ := ⌈max (max a_x b_x) c_x⌉
  let max_y : ℤ := ⌈max (max a_y b_y) c_y⌉
  (intRangeIncl min_y max_y).flatMap fun y =>
    (intRangeIncl min_x max_x).filterMap fun x =>
      let wvu := barycentric_coordinates ((x : ℚ) + 0.5) ((y : ℚ) + 0.5) v1 v2 v3
      let w := wvu.1
      let v := wvu.2.1
      let u := wvu.2.2
      if 0 ≤ w ∧ 0 ≤ v ∧ 0 ≤ u then
        let depth := w * v1.screen_position.z + v * v2.screen_position.z +
          u * v3.screen_position.z
        let color := ShaderColor.new
          (w * v1.color.r + v * v2.color.r + u * v3.color.r)
          (w * v1.color.g + v * v2.color.g + u * v3.color.g)
          (w * v1.color.b + v * v2.color.b + u * v3.color.b)
          (w * v1.color.a + v * v2.color.a + u * v3.color.a)
        let world_pos : Vector3 :=
          ⟨w * v1.world_position.x + v * v2.world_position.x + u * v3.world_position.x,
           w * v1.world_position.y + v * v2.world_position.y + u * v3.world_position.y,
           w * v1.world_position.z + v * v2.world_position.z + u * v3.world_position.z⟩
        let normal := Vector3.normalize ops
          ⟨w * v1.normal.x + v * v2.normal.x + u * v3.normal.x,
           w * v1.normal.y + v * v2.normal.y + u * v3.normal.y,
           w * v1.normal.z + v * v2.normal.z + u * v3.normal.z⟩
        some (Fragment.new_with_data (x : ℚ) (y : ℚ) color depth world_pos normal)
      else
        none

/-! ## Framebuffer (src/framebuffer.rs) -/

/-- `raylib::prelude::Color { r, g, b, a: u8 }`: four 8-bit channels. -/
structure Color where
  r : ℕ
  g : ℕ
  b : ℕ
  a : ℕ
deriving DecidableEq

/-- `Color::BLACK`. -/
def Color.black : Color :=
  ⟨0, 0, 0, 255⟩

/-- `Color::WHITE`. -/
def Color.white : Color :=
  ⟨255, 255, 255, 255⟩

/-- `Framebuffer` (src/framebuffer.rs lines 3-11): a color array and a
parallel depth array.  Depth entries are `f32` values that include
`f32::INFINITY`, modelled as `WithTop ℚ` (`⊤` is `+∞`).  The raylib
`texture` handle is an external display resource with no bearing on the
pixel/depth semantics and is omitted. -/
structure Framebuffer where
  pixels : List Color
  width : ℕ
  height : ℕ
  current_color : Color
  background_color : Color
  zbuffer : List (WithTop ℚ)
deriving DecidableEq

/-- `Framebuffer::new` (src/framebuffer.rs lines 15-26): `width*height`
black pixels and `+∞` depths. -/
def Framebuffer.new (width height : ℕ) : Framebuffer :=
  let total_pixels := width * height
  { pixels := List.replicate total_pixels Color.black
    width := width
    height := height
    current_color := Color.white
    background_color := Color.black
    zbuffer := List.replicate total_pixels ⊤ }

/-- `Framebuffer::clear` (src/framebuffer.rs lines 29-32): fill the color
array with `color` and the depth array with `+∞`. -/
def Framebuffer.clear (fb : Framebuffer) (color : Color) : Framebuffer :=
  { fb with
    pixels := List.replicate fb.pixels.length color
    zbuffer := List.replicate fb.zbuffer.length ⊤ }

/-- `Framebuffer::set_pixel_with_depth` (src/framebuffer.rs lines 59-67):
bounds-check, then depth test `depth < zbuffer[index]`, writing color and
depth on success.  The in-range index is always within both arrays under
the `width*height` length invariant, so the `getD` default is unreachable
there. -/
def Framebuffer.set_pixel_with_depth (fb : Framebuffer) (x y : ℕ) (color : Color)
    (depth : WithTop ℚ) : Framebuffer :=
  if x < fb.width ∧ y < fb.height then
    let index := y * fb.width + x
    if depth < fb.zbuffer.getD index ⊤ then
      { fb with
        pixels := fb.pixels.set index color
        zbuffer := fb.zbuffer.set index depth }
    else fb
  else fb

/-- `Framebuffer::get_pixel` (src/framebuffer.rs lines 69-76): the pixel at
`(x, y)`, or black when out of range. -/
def Framebuffer.get_pixel (fb : Framebuffer) (x y : ℕ) : Color :=
  if x < fb.width ∧ y < fb.height then
    fb.pixels.getD (y * fb.width + x) Color.black
  else
    Color.black

/-- Semantics of Rust `expr as u8` applied to an `f32` (a saturating cast
since Rust 1.45): truncate toward zero, then clamp into `0..=255`. -/
def f32AsU8 (q : ℚ) : ℕ :=
  (min 255 (max 0 (truncQ q))).toNat

/-- `ShaderColor::to_raylib_color` (src/shaders.rs lines 26-33): each `f32`
channel is scaled by `255.0` and cast `as u8`. -/
def ShaderColor.to_raylib_color (c : ShaderColor) : Color :=
  { r := f32AsU8 (c.r * 255)
    g := f32AsU8 (c.g * 255)
    b := f32AsU8 (c.b * 255)
    a := f32AsU8 (c.a * 255) }

/-! ## Camera (src/camera.rs) -/

/-- The exact value of the `f32` constant `std::f32::consts::PI`
(bit pattern `0x40490FDB`). -/
def PI32 : ℚ :=
  13176795 / 4194304

/-- `Camera` (src/camera.rs lines 8-23). -/
structure Camera where
  eye : Vector3
  target : Vector3
  up : Vector3
  yaw : ℚ
  pitch : ℚ
  distance : ℚ
  rotation_speed : ℚ
  zoom_speed : ℚ
  pan_speed : ℚ
deriving DecidableEq

/-- The per-frame input snapshot `Camera::update` reads from raylib
(`get_mouse_delta`, `get_mouse_wheel_move`, `is_mouse_button_down` for the
left/right buttons, `get_frame_time`). -/
structure FrameInput where
  mouse_delta_x : ℚ
  mouse_delta_y : ℚ
  wheel_move : ℚ
  left_down : Bool
  right_down : Bool
  frame_time : ℚ
deriving DecidableEq

/-- `Camera::update_position` (src/camera.rs lines 71-78): recompute `eye`
from spherical coordinates around `target`. -/
def Camera.update_position (ops : RealOps) (c : Camera) : Camera :=
  { c with
    eye := ⟨c.target.x + c.distance * ops.cos c.pitch * ops.cos c.yaw,
            c.target.y + c.distance * ops.sin c.pitch,
            c.target.z + c.distance * ops.cos c.pitch * ops.sin c.yaw⟩ }

/-- `Camera::update` (src/camera.rs lines 42-69): rotate (with pitch clamp)
while the left button is held, zoom with the wheel (distance clamped to
`[1, 20]`), pan while the right button is held, then recompute `eye`. -/
def Camera.update (ops : RealOps) (c : Camera) (inp : FrameInput) : Camera :=
  let c1 :=
    if inp.left_down then
      { c with
        yaw := c.yaw - inp.mouse_delta_x * c.rotation_speed * inp.frame_time
        pitch := clampQ (c.pitch - inp.mouse_delta_y * c.rotation_speed * inp.frame_time)
          (-(PI32 / 2) + 0.1) (PI32 / 2 - 0.1) }
    else c
  let c2 := { c1 with distance := clampQ (c1.distance - inp.wheel_move * c1.zoom_speed) 1 20 }
  let c3 :=
    if inp.right_down then
      let right : Vector3 := ⟨ops.cos c2.yaw, 0, ops.sin c2.yaw⟩
      let forward : Vector3 := ⟨-(ops.sin c2.yaw), 0, ops.cos c2.yaw⟩
      let t1 := c2.target + right.scale (-(inp.mouse_delta_x) * c2.pan_speed * inp.frame_time)
      let t2 := t1 + forward.scale (inp.mouse_delta_y * c2.pan_speed * inp.frame_time)
      { c2 with target := t2 }
    else c2
  c3.update_position ops

/-- The spherical direction `(cos pitch * cos yaw, sin pitch,
cos pitch * sin yaw)` that `update_position` scales by `distance`. -/
def sphericalDirection (ops : RealOps) (yaw pitch : ℚ) : Vector3 :=
  ⟨ops.cos pitch * ops.cos yaw, ops.sin pitch, ops.cos pitch * ops.sin yaw⟩

/-! ## Mesh and sphere generation (src/sphere.rs) -/

/-- `Vertex` (src/sphere.rs lines 3-8). -/
structure Vertex where
  position : Vector3
  normal : Vector3
  uv : ℚ × ℚ
deriving DecidableEq

/-- `Mesh` (src/sphere.rs lines 10-14): index values are `u32`. -/
structure Mesh where
  vertices : List Vertex
  indices : List ℕ
deriving DecidableEq

/-- Wrapping `u32` arithmetic. -/
def u32Mod (n : ℕ) : ℕ :=
  n % 2 ^ 32

/-- `Mesh::create_sphere` (src/sphere.rs lines 25-76): `(rings+1)*(sectors+1)`
vertices in ring-major order, then two optional triangles per `(i, j)` cell
(the first skipped on the top ring, the second on the bottom ring).  The
`u32` index arithmetic wraps, hence `u32Mod`. -/
def Mesh.create_sphere (ops : RealOps) (radius : ℚ) (rings sectors : ℕ) : Mesh :=
  let ring_step := PI32 / (rings : ℚ)
  let sector_step := 2 * PI32 / (sectors : ℚ)
  { vertices :=
      (List.range (rings + 1)).flatMap fun (i : ℕ) =>
        (List.range (sectors + 1)).map fun (j : ℕ) =>
          let ring_angle := PI32 / 2 - (i : ℚ) * ring_step
          let xy := radius * ops.cos ring_angle
          let z := radius * ops.sin ring_angle
          let sector_angle := (j : ℚ) * sector_step
          let x := xy * ops.cos sector_angle
          let y := xy * ops.sin sector_angle
          let position : Vector3 := ⟨x, y, z⟩
          { position := position
            normal := position.normalize ops
            uv := ((j : ℚ) / (sectors : ℚ), (i : ℚ) / (rings : ℚ)) }
    indices :=
      (List.range rings).flatMap fun i =>
        let k1 := u32Mod (i * u32Mod (sectors + 1))
        let k2 := u32Mod (k1 + sectors + 1)
        (List.range sectors).flatMap fun j =>
          (if i ≠ 0 then
            [u32Mod (k1 + j), u32Mod (k2 + j), u32Mod (k1 + j + 1)]
          else []) ++
          (if i ≠ rings - 1 then
            [u32Mod (k1 + j + 1), u32Mod (k2 + j), u32Mod (k2 + j + 1)]
          else []) }

/-! ## Planet construction and triangle assembly (src/main.rs) -/

/-- `PlanetType` (src/main.rs lines 20-25). -/
inductive PlanetType where
  | rocky
  | gasGiant
  | crystal
  | lava
deriving DecidableEq

/-- The rotation speed selected by `Planet::new` for each planet type
(src/main.rs lines 46-51). -/
def PlanetType.rotationSpeed : PlanetType → ℚ
  | .rocky => 0.5
  | .gasGiant => 1.2
  | .crystal => 0.8
  | .lava => 1.5

/-- The rings flag selected by `Planet::new` (src/main.rs lines 46-51). -/
def PlanetType.hasRings : PlanetType → Bool
  | .rocky => false
  | .gasGiant => true
  | .crystal => true
  | .lava => false

/-- The moon flag selected by `Planet::new` (src/main.rs lines 46-51). -/
def PlanetType.hasMoon : PlanetType → Bool
  | .rocky => true
  | .gasGiant => false
  | .crystal => false
  | .lava => false

/-- `Planet` (src/main.rs lines 27-34); the boxed shader object is dispatched
by planet type, recorded here as the tag. -/
structure Planet where
  mesh : Mesh
  shader : PlanetType
  rotation : ℚ
  rotation_speed : ℚ
  has_rings : Bool
  has_moon : Bool
deriving DecidableEq

/-- `Planet::new` (src/main.rs lines 37-61).  `load_obj("images/sphere.obj")`
reads the filesystem (an external collaborator); its outcome is passed in as
`loadResult`, and `unwrap_or_else` substitutes the generated sphere
`Mesh::create_sphere(1.0, 32, 32)` on error. -/
def Planet.new (ops : RealOps) (planet_type : PlanetType)
    (loadResult : Except String Mesh) : Planet :=
  let mesh :=
    match loadResult with
    | .ok m => m
    | .error _ => Mesh.create_sphere ops 1 32 32
  { mesh := mesh
    shader := planet_type
    rotation := 0
    rotation_speed := planet_type.rotationSpeed
    has_rings := planet_type.hasRings
    has_moon := planet_type.hasMoon }

/-- The triangle-assembly phase of `render_planet_software` (src/main.rs
lines 98-105): `for i in (0..indices.len()).step_by(3)` fetches
`indices[i]`, `indices[i+1]`, `indices[i+2]` and then `vertices[idx]` for
each.  Rust `Vec` indexing panics on an out-of-range index; the panic is
modelled as `none`.  The per-triangle shading, rasterization and
framebuffer writes consume the fetched vertices and cannot affect whether a
fetch panics. -/
def render_fetch_triangles (mesh : Mesh) : Option (List (Vertex × Vertex × Vertex)) :=
  (List.range ((mesh.indices.length + 2) / 3)).mapM fun t =>
    let i := 3 * t
    (mesh.indices[i]?).bind fun idx1 =>
      (mesh.indices[i + 1]?).bind fun idx2 =>
        (mesh.indices[i + 2]?).bind fun idx3 =>
          (mesh.vertices[idx1]?).bind fun v1 =>
            (mesh.vertices[idx2]?).bind fun v2 =>
              (mesh.vertices[idx3]?).bind fun v3 =>
                some (v1, v2, v3)

/-! ## Procedural noise and the rocky shader (src/shaders.rs) -/

/-- `ShaderUniforms` (src/shaders.rs lines 39-43). -/
structure ShaderUniforms where
  time : ℚ
  light_direction : Vector3
  camera_position : Vector3
deriving DecidableEq

/-- `simple_noise` (src/shaders.rs lines 52-55): a hash-style scalar field
built from `sin`, `abs` and `fract`. -/
def simple_noise (ops : RealOps) (x y : ℚ) : ℚ :=
  let seed := absQ (ops.sin ((x * 12.9898 + y * 78.233) * 43758.5453))
  fractQ (seed * 1000)

/-- The loop of `fbm` (src/shaders.rs lines 57-69): each iteration adds
`amplitude * simple_noise x y`, then doubles `x`, `y` and halves the
amplitude. -/
def fbmAux (ops : RealOps) (x y amplitude : ℚ) : ℕ → ℚ
  | 0 => 0
  | n + 1 =>
    amplitude * simple_noise ops x y + fbmAux ops (x * 2) (y * 2) (amplitude * 0.5) n

/-- `fbm` (src/shaders.rs lines 57-69), with the initial amplitude `0.5`.
The `i32` octave count only drives the loop, so a nonpositive count (never
used by the source) runs zero iterations, matching `ℕ`. -/
def fbm (ops : RealOps) (x y : ℚ) (octaves : ℕ) : ℚ :=
  fbmAux ops x y 0.5 octaves

/-- The `(i, j)` neighbourhood visited by `voronoi_noise`, in source order. -/
def voronoiCells : List (ℤ × ℤ) :=
  [(-1, -1), (-1, 0), (-1, 1), (0, -1), (0, 0), (0, 1), (1, -1), (1, 0), (1, 1)]

/-- `voronoi_noise` (src/shaders.rs lines 72-90): nearest pseudo-random
feature point over a 3x3 cell neighbourhood.  `min_dist` starts at
`f32::INFINITY` (the `⊤` seed of the fold); with nine candidates the
minimum is always finite and `untop'` extracts it. -/
def voronoi_noise (ops : RealOps) (x y : ℚ) : ℚ :=
  let cell_x : ℚ := (⌊x⌋ : ℚ)
  let cell_y : ℚ := (⌊y⌋ : ℚ)
  ((voronoiCells.map fun p =>
      let neighbor_x := cell_x + (p.1 : ℚ)
      let neighbor_y := cell_y + (p.2 : ℚ)
      let point_x := neighbor_x + simple_noise ops neighbor_x neighbor_y
      let point_y := neighbor_y + simple_noise ops neighbor_y neighbor_x
      ((ops.sqrt ((x - point_x) ^ 2 + (y - point_y) ^ 2) : ℚ) : WithTop ℚ)
    ).foldl min (⊤ : WithTop ℚ)).untop' 0

/-- The loop of `ridge_noise` (src/shaders.rs lines 93-107): each iteration
adds `(1 - |2n - 1|) * amplitude`, doubles the frequency and halves the
amplitude. -/
def ridgeAux (ops : RealOps) (x y amplitude frequency : ℚ) : ℕ → ℚ
  | 0 => 0
  | n + 1 =>
    let nz := simple_noise ops (x * frequency) (y * frequency)
    let ridge := 1 - absQ (2 * nz - 1)
    ridge * amplitude + ridgeAux ops x y (amplitude * 0.5) (frequency * 2) n

/-- `ridge_noise` (src/shaders.rs lines 93-107), initial amplitude `0.5`
and frequency `1`. -/
def ridge_noise (ops : RealOps) (x y : ℚ) (octaves : ℕ) : ℚ :=
  ridgeAux ops x y 0.5 1 octaves

/-- `smoothstep` (src/shaders.rs lines 109-112). -/
def smoothstep (edge0 edge1 x : ℚ) : ℚ :=
  let t := clampQ ((x - edge0) / (edge1 - edge0)) 0 1
  t * t * (3 - 2 * t)

/-- `mix` (src/shaders.rs lines 114-116). -/
def mix (a b t : ℚ) : ℚ :=
  a * (1 - t) + b * t

/-- `mix_color` (src/shaders.rs lines 118-125). -/
def mix_color (a b : ShaderColor) (t : ℚ) : ShaderColor :=
  ShaderColor.new (mix a.r b.r t) (mix a.g b.g t) (mix a.b b.b t) (mix a.a b.a t)

/-- `RockyPlanetShader::vertex_shader` (src/shaders.rs lines 131-148):
displaces the position along the normal by ridge + voronoi + fbm layers. -/
def RockyPlanetShader.vertex_shader (ops : RealOps) (position normal : Vector3)
    (_uv : ℚ × ℚ) (_uniforms : ShaderUniforms) : Vector3 × Vector3 :=
  let mountain_noise := ridge_noise ops (position.x * 2) (position.z * 2) 4
  let mountain_displacement := mountain_noise * 0.08
  let crater_noise := voronoi_noise ops (position.x * 8) (position.z * 8)
  let crater_displacement := -(max (crater_noise * 0.03) 0)
  let detail_noise := fbm ops (position.x * 15) (position.z * 15) 3
  let detail_displacement := detail_noise * 0.01
  let total_displacement := mountain_displacement + crater_displacement + detail_displacement
  let new_position := position + normal.scale total_displacement
  (new_position, normal)

/-- `RockyPlanetShader::fragment_shader` (src/shaders.rs lines 150-220):
noise-driven base-color selection followed by ambient/diffuse/specular/rim
lighting and a final clamp of each channel into `[0, 1]`. -/
def RockyPlanetShader.fragment_shader (ops : RealOps) (position normal : Vector3)
    (uv : ℚ × ℚ) (uniforms : ShaderUniforms) : ShaderColor :=
  let bedrock_color := ShaderColor.from_rgb 101 67 33
  let soil_color := ShaderColor.from_rgb 139 69 19
  let mountain_color := ShaderColor.from_rgb 105 105 105
  let crater_color := ShaderColor.from_rgb 64 64 64
  let mineral_color := ShaderColor.from_rgb 184 134 11
  let elevation_noise := ridge_noise ops (uv.1 * 3) (uv.2 * 3) 4
  let surface_noise := fbm ops (uv.1 * 8) (uv.2 * 8) 4
  let crater_noise := voronoi_noise ops (uv.1 * 6) (uv.2 * 6)
  let mineral_noise := fbm ops (uv.1 * 20) (uv.2 * 20) 2
  let base_color := bedrock_color
  let base_color :=
    if elevation_noise > 0.6 then
      mix_color base_color mountain_color (smoothstep 0.6 0.8 elevation_noise)
    else base_color
  let base_color :=
    if surface_noise > 0.3 ∧ elevation_noise < 0.7 then
      mix_color base_color soil_color (smoothstep 0.3 0.6 surface_noise)
    else base_color
  let base_color :=
    if crater_noise < 0.3 then
      mix_color crater_color base_color (smoothstep 0 0.3 crater_noise)
    else base_color
  let base_color :=
    if mineral_noise > 0.7 then
      mix_color base_color mineral_color (smoothstep 0.7 0.9 mineral_noise * 0.4)
    else base_color
  let light_dir := uniforms.light_direction.normalize ops
  let view_dir := (uniforms.camera_position - position).normalize ops
  let diffuse := max (normal.dot light_dir) 0
  let reflect_dir := (normal.scale (2 * normal.dot light_dir)) - light_dir
  let specular := ops.powf (max (view_dir.dot reflect_dir) 0) 16 * max mineral_noise 0
  let ao := 1 - clampQ (surface_noise * 0.3) 0 0.4
  let rim := ops.powf (1 - view_dir.dot normal) 2 * 0.2
  let ambient : ℚ := 0.15
  let final_intensity := (ambient + diffuse * 0.7 + specular * 0.3 + rim) * ao
  let altitude_factor := clampQ (elevation_noise * 0.2 + 0.8) 0.6 1
  let temperature_variation := ops.sin (position.y * 0.1) * 0.1 + 1
  ShaderColor.new
    (clampQ (base_color.r * final_intensity * altitude_factor * temperature_variation) 0 1)
    (clampQ (base_color.g * final_intensity * altitude_factor * temperature_variation) 0 1)
    (clampQ (base_color.b * final_intensity * altitude_factor * temperature_variation) 0 1)
    1

/-! ## Concrete inputs used by witnesses -/

/-- A transformed vertex whose screen position is `(3, 4, 1)`; a triangle
built from three copies of it has zero area. -/
def degenTV : TransformedVertex :=
  { screen_position := ⟨3, 4, 1⟩
    world_position := ⟨0, 0, 0⟩
    normal := ⟨0, 0, 1⟩
    color := ⟨1, 1, 1, 1⟩
    uv := (0, 0) }

/-- Vertex at screen position `(0, 0)`. -/
def tvA : TransformedVertex :=
  { degenTV with screen_position := ⟨0, 0, 0⟩ }

/-- Vertex at screen position `(1, 0)`. -/
def tvB : TransformedVertex :=
  { degenTV with screen_position := ⟨1, 0, 0⟩ }

/-- Vertex at screen position `(0, 1)`. -/
def tvC : TransformedVertex :=
  { degenTV with screen_position := ⟨0, 1, 0⟩ }

/-- A matrix whose homogeneous divisor for `cexV` is the tiny nonzero value
`1e-20`. -/
def cexM : Matrix :=
  Matrix.new 1 0 0 0 0 1 0 0 0 0 1 0 0 0 0 (1 / 10 ^ 20)

/-- The vector `(1, 0, 0)`. -/
def cexV : Vector3 :=
  ⟨1, 0, 0⟩

/-- A matrix whose bottom row is zero, so the homogeneous divisor is `0`. -/
def zeroWM : Matrix :=
  Matrix.new 1 0 0 0 0 1 0 0 0 0 1 0 0 0 0 0

/-- The vector `(1, 2, 3)`. -/
def wV : Vector3 :=
  ⟨1, 2, 3⟩

/-- Opaque red, used in the C2 depth-test scenario. -/
def colA : Color :=
  ⟨255, 0, 0, 255⟩

/-- Opaque green, used in the C2 depth-test scenario. -/
def colB : Color :=
  ⟨0, 255, 0, 255⟩

/-- Opaque blue, used in the C2 depth-test scenario. -/
def colC : Color :=
  ⟨0, 0, 255, 255⟩

/-- A shader color with channels above 1, below 0, inside `[0,1]`, and at 1. -/
def cW : ShaderColor :=
  ⟨2, -1, 1/2, 1⟩

/-- A shader color with channels at or above those of `cW`. -/
def c2W : ShaderColor :=
  ⟨3, 0, 1, 1⟩

/-- A camera whose pitch `10` is far outside `(-pi/2, pi/2)`. -/
def camBad : Camera :=
  { eye := ⟨0, 0, 5⟩
    target := ⟨0, 0, 0⟩
    up := ⟨0, 1, 0⟩
    yaw := 0
    pitch := 10
    distance := 5
    rotation_speed := 2
    zoom_speed := 1
    pan_speed := 1/2 }

/-- The same camera with pitch `0` (inside `(-pi/2, pi/2)`). -/
def camGood : Camera :=
  { camBad with pitch := 0 }

/-- An idle frame: no pointer movement, no wheel, no buttons held. -/
def inpIdle : FrameInput :=
  { mouse_delta_x := 0
    mouse_delta_y := 0
    wheel_move := 0
    left_down := false
    right_down := false
    frame_time := 1/60 }

/-- A vertex at the origin with unit-z normal. -/
def vertexW : Vertex :=
  { position := ⟨0, 0, 0⟩, normal := ⟨0, 0, 1⟩, uv := (0, 0) }

/-- A mesh whose index list contains `5`, out of range for its single
vertex. -/
def badMesh : Mesh :=
  { vertices := [vertexW], indices := [5, 0, 0] }

/-- A well-formed one-triangle mesh. -/
def goodMesh : Mesh :=
  { vertices := [vertexW, vertexW, vertexW], indices := [0, 1, 2] }

/-! ## Theorems -/

/-- C3 counterexample: for the concrete matrix `cexM` and vector `cexV` the
homogeneous divisor is `1e-20` - near zero (below the renderer's own `1e-10`
epsilon) but nonzero - and `transform_vector` divides by it instead of
falling back to the un-divided result, contradicting the claim that a
near-zero divisor falls back. -/
theorem spec_C3_near_zero_divisor_counterexample :
    absQ (cexM.tw cexV) < 1 / 10 ^ 10 ∧
      cexM.transform_vector cexV ≠ ⟨cexM.tx cexV, cexM.ty cexV, cexM.tz cexV⟩ := by
  constructor
  · norm_num [cexM, cexV, Matrix.new, Matrix.tw, absQ]
  · norm_num [cexM, cexV, Matrix.new, Matrix.transform_vector, Matrix.tx, Matrix.ty,
      Matrix.tz, Matrix.tw, Vector3.mk.injEq]

/-- C3 (amended): `transform_vector` falls back to the un-divided
`(x, y, z)` exactly when the homogeneous divisor `w` is zero, so the
division is never performed with a zero divisor. -/
theorem spec_C3_zero_divisor_fallback (m : Matrix) (v : Vector3) (h : m.tw v = 0) :
    m.transform_vector v = ⟨m.tx v, m.ty v, m.tz v⟩ := by
  unfold Matrix.transform_vector
  simp [h]

/-- C3 witness: a matrix with zero bottom row yields divisor `0` and the
un-divided result. -/
theorem spec_C3_zero_divisor_fallback_witness :
    zeroWM.tw wV = 0 ∧ zeroWM.transform_vector wV = ⟨zeroWM.tx wV, zeroWM.ty wV, zeroWM.tz wV⟩ :=
  ⟨by simp [zeroWM, wV, Matrix.new, Matrix.tw],
   spec_C3_zero_divisor_fallback zeroWM wV (by simp [zeroWM, wV, Matrix.new, Matrix.tw])⟩


/-- C4: for every triangle whose signed screen-space area has absolute value
below the epsilon `1e-10` (in particular one with all three screen positions
identical), `barycentric_coordinates` returns the sentinel `(-1,-1,-1)` for
every query point, and the rasterizer `triangle` emits zero fragments. -/
theorem spec_C4_degenerate_triangle_no_fragments (ops : RealOps)
    (v1 v2 v3 : TransformedVertex) (h : absQ (triArea v1 v2 v3) < 1 / 10 ^ 10) :
    (∀ px py : ℚ, barycentric_coordinates px py v1 v2 v3 = (-1, -1, -1)) ∧
      triangle ops v1 v2 v3 = [] := by
  have hb : ∀ px py : ℚ, barycentric_coordinates px py v1 v2 v3 = (-1, -1, -1) := by
    intro px py
    unfold barycentric_coordinates
    simp only [if_pos h]
  refine ⟨hb, ?_⟩
  unfold triangle
  rw [List.flatMap_eq_nil_iff]
  intro y _
  rw [List.filterMap_eq_nil_iff]
  intro x _
  simp only [hb]
  norm_num

/-- C4 witness: a concrete zero-area triangle (all three screen positions
equal) emits zero fragments. -/
theorem spec_C4_degenerate_triangle_no_fragments_witness :
    absQ (triArea degenTV degenTV degenTV) < 1 / 10 ^ 10 ∧
      triangle opsZero degenTV degenTV degenTV = [] :=
  ⟨by simp [triArea, degenTV, absQ],
   (spec_C4_degenerate_triangle_no_fragments opsZero degenTV degenTV degenTV
     (by simp [triArea, degenTV, absQ])).2⟩

/-- C5: for every triangle whose signed area is at least `1e-10` in absolute
value, the barycentric weights evaluated at the three vertices' own screen
positions are exactly `(1,0,0)`, `(0,1,0)` and `(0,0,1)` (so in particular
within any epsilon). -/
theorem spec_C5_barycentric_at_vertices (v1 v2 v3 : TransformedVertex)
    (h : 1 / 10 ^ 10 ≤ absQ (triArea v1 v2 v3)) :
    barycentric_coordinates v1.screen_position.x v1.screen_position.y v1 v2 v3 = (1, 0, 0) ∧
      barycentric_coordinates v2.screen_position.x v2.screen_position.y v1 v2 v3 = (0, 1, 0) ∧
      barycentric_coordinates v3.screen_position.x v3.screen_position.y v1 v2 v3 = (0, 0, 1) := by
  have hne : triArea v1 v2 v3 ≠ 0 := by
    intro h0
    rw [h0] at h
    norm_num [absQ] at h
  have hnlt : ¬ absQ (triArea v1 v2 v3) < 1 / 10 ^ 10 := not_lt.2 h
  unfold barycentric_coordinates
  rw [if_neg hnlt, if_neg hnlt, if_neg hnlt]
  refine ⟨?_, ?_, ?_⟩ <;>
    refine Prod.ext ?_ (Prod.ext ?_ ?_) <;>
    simp only [triArea] at hne ⊢ <;>
    field_simp <;>
    ring

/-- The witness triangle `(0,0)`, `(1,0)`, `(0,1)` has signed area `1`. -/
theorem tvABC_area_large : 1 / 10 ^ 10 ≤ absQ (triArea tvA tvB tvC) := by
  norm_num [triArea, tvA, tvB, tvC, degenTV, absQ]

/-- C5 witness: the right triangle with screen positions `(0,0)`, `(1,0)`,
`(0,1)` has area `1 ≥ 1e-10` and exact vertex weights. -/
theorem spec_C5_barycentric_at_vertices_witness :
    1 / 10 ^ 10 ≤ absQ (triArea tvA tvB tvC) ∧
      barycentric_coordinates tvA.screen_position.x tvA.screen_position.y tvA tvB tvC =
        (1, 0, 0) :=
  ⟨tvABC_area_large,
   (spec_C5_barycentric_at_vertices tvA tvB tvC tvABC_area_large).1⟩

theorem truncQ_mono {a b : ℚ} (h : a ≤ b) : truncQ a ≤ truncQ b := by
  unfold truncQ
  rcases le_or_lt 0 a with ha | ha <;> rcases le_or_lt 0 b with hb | hb
  · rw [if_pos ha, if_pos hb]
    exact Int.floor_le_floor h
  · linarith
  · rw [if_neg (not_le.2 ha), if_pos hb]
    exact le_trans (Int.ceil_le.2 (by exact_mod_cast ha.le)) (Int.floor_nonneg.2 hb)
  · rw [if_neg (not_le.2 ha), if_neg (not_le.2 hb)]
    exact Int.ceil_le_ceil h

theorem f32AsU8_le_255 (q : ℚ) : f32AsU8 q ≤ 255 := by
  unfold f32AsU8
  omega

theorem f32AsU8_of_ge (q : ℚ) (h : 255 ≤ q) : f32AsU8 q = 255 := by
  unfold f32AsU8 truncQ
  rw [if_pos (by linarith)]
  have h2 : (255 : ℤ) ≤ ⌊q⌋ := Int.le_floor.2 (by exact_mod_cast h)
  omega

theorem f32AsU8_of_nonpos (q : ℚ) (h : q ≤ 0) : f32AsU8 q = 0 := by
  unfold f32AsU8
  have h2 : truncQ q ≤ 0 := by
    unfold truncQ
    rcases le_or_lt 0 q with h0 | h0
    · have hq : q = 0 := le_antisymm h h0
      rw [if_pos h0, hq]
      simp
    · rw [if_neg (not_le.2 h0)]
      exact Int.ceil_le.2 (by exact_mod_cast h0.le)
  omega

theorem f32AsU8_mono {a b : ℚ} (h : a ≤ b) : f32AsU8 a ≤ f32AsU8 b := by
  unfold f32AsU8
  have h2 := truncQ_mono h
  omega

/-- C8: the 8-bit conversion `to_raylib_color` saturates: every channel of
the result is at most 255; a channel value at or above 1 maps to exactly
255 and a channel at or below 0 maps to exactly 0 (no wrap-around modulo
256); and the conversion is monotone per channel, which a wrapping
conversion would violate. -/
theorem spec_C8_to_raylib_color_saturates (c c2 : ShaderColor) :
    (c.to_raylib_color.r ≤ 255 ∧ c.to_raylib_color.g ≤ 255 ∧
      c.to_raylib_color.b ≤ 255 ∧ c.to_raylib_color.a ≤ 255) ∧
    ((1 ≤ c.r → c.to_raylib_color.r = 255) ∧ (1 ≤ c.g → c.to_raylib_color.g = 255) ∧
      (1 ≤ c.b → c.to_raylib_color.b = 255) ∧ (1 ≤ c.a → c.to_raylib_color.a = 255)) ∧
    ((c.r ≤ 0 → c.to_raylib_color.r = 0) ∧ (c.g ≤ 0 → c.to_raylib_color.g = 0) ∧
      (c.b ≤ 0 → c.to_raylib_color.b = 0) ∧ (c.a ≤ 0 → c.to_raylib_color.a = 0)) ∧
    ((c.r ≤ c2.r → c.to_raylib_color.r ≤ c2.to_raylib_color.r) ∧
      (c.g ≤ c2.g → c.to_raylib_color.g ≤ c2.to_raylib_color.g) ∧
      (c.b ≤ c2.b → c.to_raylib_color.b ≤ c2.to_raylib_color.b) ∧
      (c.a ≤ c2.a → c.to_raylib_color.a ≤ c2.to_raylib_color.a)) := by
  refine ⟨⟨?_, ?_, ?_, ?_⟩, ⟨?_, ?_, ?_, ?_⟩, ⟨?_, ?_, ?_, ?_⟩, ⟨?_, ?_, ?_, ?_⟩⟩
  · exact f32AsU8_le_255 _
  · exact f32AsU8_le_255 _
  · exact f32AsU8_le_255 _
  · exact f32AsU8_le_255 _
  · intro h
    exact f32AsU8_of_ge _ (by linarith)
  · intro h
    exact f32AsU8_of_ge _ (by linarith)
  · intro h
    exact f32AsU8_of_ge _ (by linarith)
  · intro h
    exact f32AsU8_of_ge _ (by linarith)
  · intro h
    exact f32AsU8_of_nonpos _ (by linarith)
  · intro h
    exact f32AsU8_of_nonpos _ (by linarith)
  · intro h
    exact f32AsU8_of_nonpos _ (by linarith)
  · intro h
    exact f32AsU8_of_nonpos _ (by linarith)
  · intro h
    exact f32AsU8_mono (by linarith)
  · intro h
    exact f32AsU8_mono (by linarith)
  · intro h
    exact f32AsU8_mono (by linarith)
  · intro h
    exact f32AsU8_mono (by linarith)

/-- C8 witness: channel value 2 saturates to 255, channel value -1 to 0,
on the concrete color `cW = (2, -1, 1/2, 1)`. -/
theorem spec_C8_to_raylib_color_saturates_witness :
    cW.to_raylib_color.r = 255 ∧ cW.to_raylib_color.g = 0 :=
  ⟨(spec_C8_to_raylib_color_saturates cW c2W).2.1.1 (by decide),
   (spec_C8_to_raylib_color_saturates cW c2W).2.2.1.2.1 (by decide)⟩

/-- C2: `set_pixel_with_depth` is a silent no-op when `(x, y)` is outside
the `width x height` range; in range it writes color and depth to the
pixel's entries in both arrays precisely when `depth` is strictly below the
stored depth, and leaves the framebuffer unchanged otherwise; and the
concrete scenario writing `(colA, 5)`, `(colB, 3)`, `(colC, 10)` to pixel
`(1, 2)` of a fresh 4x4 framebuffer leaves that pixel at `colB`. -/
theorem spec_C2_set_pixel_with_depth (fb : Framebuffer) (x y : ℕ) (c : Color)
    (d : WithTop ℚ)
    (_hpix : fb.pixels.length = fb.width * fb.height)
    (_hz : fb.zbuffer.length = fb.width * fb.height) :
    (¬ (x < fb.width ∧ y < fb.height) → fb.set_pixel_with_depth x y c d = fb) ∧
    ((x < fb.width ∧ y < fb.height) →
      (d < fb.zbuffer.getD (y * fb.width + x) ⊤ →
        (fb.set_pixel_with_depth x y c d).pixels = fb.pixels.set (y * fb.width + x) c ∧
          (fb.set_pixel_with_depth x y c d).zbuffer = fb.zbuffer.set (y * fb.width + x) d) ∧
      (¬ d < fb.zbuffer.getD (y * fb.width + x) ⊤ →
        fb.set_pixel_with_depth x y c d = fb)) ∧
    ((((Framebuffer.new 4 4).set_pixel_with_depth 1 2 colA ((5 : ℚ) : WithTop ℚ)
        ).set_pixel_with_depth 1 2 colB ((3 : ℚ) : WithTop ℚ)
        ).set_pixel_with_depth 1 2 colC ((10 : ℚ) : WithTop ℚ)).get_pixel 1 2 = colB := by
  refine ⟨?_, ?_, ?_⟩
  · intro h
    simp only [Framebuffer.set_pixel_with_depth]
    rw [if_neg h]
  · intro h
    constructor
    · intro hd
      simp only [Framebuffer.set_pixel_with_depth]
      rw [if_pos h, if_pos hd]
      exact ⟨rfl, rfl⟩
    · intro hd
      simp only [Framebuffer.set_pixel_with_depth]
      rw [if_pos h, if_neg hd]
  · decide

/-- C2 witness: on a fresh 4x4 framebuffer, a write at the out-of-range
pixel `(9, 0)` is a no-op. -/
theorem spec_C2_set_pixel_with_depth_witness :
    (Framebuffer.new 4 4).set_pixel_with_depth 9 0 colA ((5 : ℚ) : WithTop ℚ) =
      Framebuffer.new 4 4 :=
  (spec_C2_set_pixel_with_depth (Framebuffer.new 4 4) 9 0 colA ((5 : ℚ) : WithTop ℚ)
    (by decide) (by decide)).1 (by decide)

theorem Vector3.add_def (a b : Vector3) : a + b = ⟨a.x + b.x, a.y + b.y, a.z + b.z⟩ :=
  rfl

theorem clampQ_le (q lo hi : ℚ) : clampQ q lo hi ≤ hi :=
  min_le_left hi (max lo q)

theorem le_clampQ (q lo hi : ℚ) (h : lo ≤ hi) : lo ≤ clampQ q lo hi :=
  le_min h (le_max_left lo q)

theorem camera_update_pitch (ops : RealOps) (c : Camera) (inp : FrameInput) :
    (Camera.update ops c inp).pitch =
      if inp.left_down then
        clampQ (c.pitch - inp.mouse_delta_y * c.rotation_speed * inp.frame_time)
          (-(PI32 / 2) + 0.1) (PI32 / 2 - 0.1)
      else c.pitch := by
  cases h1 : inp.left_down <;> cases h2 : inp.right_down <;>
    simp [Camera.update, Camera.update_position, h1, h2]

theorem camera_update_distance (ops : RealOps) (c : Camera) (inp : FrameInput) :
    (Camera.update ops c inp).distance =
      clampQ (c.distance - inp.wheel_move * c.zoom_speed) 1 20 := by
  cases h1 : inp.left_down <;> cases h2 : inp.right_down <;>
    simp [Camera.update, Camera.update_position, h1, h2]

theorem camera_update_eye (ops : RealOps) (c : Camera) (inp : FrameInput) :
    (Camera.update ops c inp).eye =
      ⟨(Camera.update ops c inp).target.x +
          (Camera.update ops c inp).distance * ops.cos (Camera.update ops c inp).pitch *
            ops.cos (Camera.update ops c inp).yaw,
        (Camera.update ops c inp).target.y +
          (Camera.update ops c inp).distance * ops.sin (Camera.update ops c inp).pitch,
        (Camera.update ops c inp).target.z +
          (Camera.update ops c inp).distance * ops.cos (Camera.update ops c inp).pitch *
            ops.sin (Camera.update ops c inp).yaw⟩ := by
  cases h1 : inp.left_down <;> cases h2 : inp.right_down <;>
    simp [Camera.update, Camera.update_position, h1, h2]

/-- The rotate-branch clamp bounds, in `ℝ`: both clamp endpoints lie
strictly inside `(-pi/2, pi/2)`. -/
theorem clamp_bounds_inside_pi :
    -(Real.pi / 2) < ((-(PI32 / 2) + 0.1 : ℚ) : ℝ) ∧
      ((PI32 / 2 - 0.1 : ℚ) : ℝ) < Real.pi / 2 := by
  have hpi := Real.pi_gt_three
  have h1 : ((-(PI32 / 2) + 0.1 : ℚ) : ℝ) = -(13176795 / 8388608) + 1 / 10 := by
    norm_num [PI32]
  have h2 : ((PI32 / 2 - 0.1 : ℚ) : ℝ) = 13176795 / 8388608 - 1 / 10 := by
    norm_num [PI32]
  rw [h1, h2]
  constructor <;> linarith

/-- C6 counterexample: for the concrete camera `camBad` (pitch 10) and an
idle frame input, `Camera::update` leaves the pitch at 10, which is not
inside `(-pi/2, pi/2)`: the pitch clamp runs only while the rotate button
is held, so the claim fails for arbitrary camera states. -/
theorem spec_C6_pitch_counterexample :
    (Camera.update opsZero camBad inpIdle).pitch = 10 ∧
      ¬ (((Camera.update opsZero camBad inpIdle).pitch : ℝ) < Real.pi / 2) := by
  have hp : (Camera.update opsZero camBad inpIdle).pitch = 10 := rfl
  refine ⟨hp, ?_⟩
  rw [hp, not_lt]
  have := Real.pi_lt_d2
  push_cast
  linarith

/-- C6 (amended): for every camera state whose pitch is already strictly
inside `(-pi/2, pi/2)` - as established by `Camera::new` and preserved ever
after - and every per-frame input, after `Camera::update` the pitch remains
strictly inside `(-pi/2, pi/2)`, the distance lies in `[1, 20]`, and `eye`
equals `target + sphericalDirection(yaw, pitch) * distance`, a derived
field. -/
theorem spec_C6_camera_update_invariants (ops : RealOps) (c : Camera) (inp : FrameInput)
    (hp : -(Real.pi / 2) < (c.pitch : ℝ) ∧ (c.pitch : ℝ) < Real.pi / 2) :
    (-(Real.pi / 2) < ((Camera.update ops c inp).pitch : ℝ) ∧
      ((Camera.update ops c inp).pitch : ℝ) < Real.pi / 2) ∧
    (1 ≤ (Camera.update ops c inp).distance ∧ (Camera.update ops c inp).distance ≤ 20) ∧
    (Camera.update ops c inp).eye =
      (Camera.update ops c inp).target +
        (sphericalDirection ops (Camera.update ops c inp).yaw
          (Camera.update ops c inp).pitch).scale (Camera.update ops c inp).distance := by
  refine ⟨?_, ?_, ?_⟩
  · rw [camera_update_pitch]
    rcases inp.left_down with _ | _
    · simpa using hp
    · simp only [if_pos rfl, if_true]
      have hlohi : (-(PI32 / 2) + 0.1 : ℚ) ≤ PI32 / 2 - 0.1 := by
        norm_num [PI32]
      have hlo := le_clampQ (c.pitch - inp.mouse_delta_y * c.rotation_speed * inp.frame_time)
        (-(PI32 / 2) + 0.1) (PI32 / 2 - 0.1) hlohi
      have hhi := clampQ_le (c.pitch - inp.mouse_delta_y * c.rotation_speed * inp.frame_time)
        (-(PI32 / 2) + 0.1) (PI32 / 2 - 0.1)
      have hloR : ((-(PI32 / 2) + 0.1 : ℚ) : ℝ) ≤
          ((clampQ (c.pitch - inp.mouse_delta_y * c.rotation_speed * inp.frame_time)
            (-(PI32 / 2) + 0.1) (PI32 / 2 - 0.1) : ℚ) : ℝ) := by
        exact_mod_cast hlo
      have hhiR : ((clampQ (c.pitch - inp.mouse_delta_y * c.rotation_speed * inp.frame_time)
            (-(PI32 / 2) + 0.1) (PI32 / 2 - 0.1) : ℚ) : ℝ) ≤
          ((PI32 / 2 - 0.1 : ℚ) : ℝ) := by
        exact_mod_cast hhi
      obtain ⟨hb1, hb2⟩ := clamp_bounds_inside_pi
      exact ⟨lt_of_lt_of_le hb1 hloR, lt_of_le_of_lt hhiR hb2⟩
  · rw [camera_update_distance]
    exact ⟨le_clampQ _ 1 20 (by norm_num), clampQ_le _ 1 20⟩
  · rw [camera_update_eye]
    simp only [sphericalDirection, Vector3.scale, Vector3.add_def, Vector3.mk.injEq]
    refine ⟨by ring, by ring, by ring⟩

/-- C6 witness: the concrete camera `camGood` has pitch 0, inside
`(-pi/2, pi/2)`. -/
theorem camGood_pitch_in_range :
    -(Real.pi / 2) < ((camGood.pitch : ℚ) : ℝ) ∧ ((camGood.pitch : ℚ) : ℝ) < Real.pi / 2 := by
  have h0 : (camGood.pitch : ℚ) = 0 := rfl
  rw [h0]
  have := Real.pi_pos
  constructor <;> push_cast <;> linarith

/-- C6 amended-claim witness at the concrete camera `camGood` and idle
input. -/
theorem spec_C6_camera_update_invariants_witness :
    (-(Real.pi / 2) < ((Camera.update opsZero camGood inpIdle).pitch : ℝ) ∧
      ((Camera.update opsZero camGood inpIdle).pitch : ℝ) < Real.pi / 2) ∧
    (1 ≤ (Camera.update opsZero camGood inpIdle).distance ∧
      (Camera.update opsZero camGood inpIdle).distance ≤ 20) ∧
    (Camera.update opsZero camGood inpIdle).eye =
      (Camera.update opsZero camGood inpIdle).target +
        (sphericalDirection opsZero (Camera.update opsZero camGood inpIdle).yaw
          (Camera.update opsZero camGood inpIdle).pitch).scale
          (Camera.update opsZero camGood inpIdle).distance :=
  spec_C6_camera_update_invariants opsZero camGood inpIdle camGood_pitch_in_range

theorem u32Mod_le (n : ℕ) : u32Mod n ≤ n :=
  Nat.mod_le n (2 ^ 32)

theorem length_flatMap_const {α β : Type} (l : List α) (f : α → List β) (c : ℕ)
    (h : ∀ a ∈ l, (f a).length = c) : (l.flatMap f).length = l.length * c := by
  induction l with
  | nil => simp
  | cons a t ih =>
    have ha := h a (List.mem_cons_self a t)
    have ht : ∀ x ∈ t, (f x).length = c := fun x hx => h x (List.mem_cons_of_mem a hx)
    simp only [List.flatMap_cons, List.length_append, ha, ih ht, List.length_cons]
    ring

theorem flatMap_length_mod3 {α β : Type} (l : List α) (f : α → List β)
    (h : ∀ a ∈ l, (f a).length % 3 = 0) : (l.flatMap f).length % 3 = 0 := by
  induction l with
  | nil => simp
  | cons a t ih =>
    have ha := h a (List.mem_cons_self a t)
    have ht := ih (fun x hx => h x (List.mem_cons_of_mem a hx))
    simp only [List.flatMap_cons, List.length_append]
    omega

theorem mapM_option_isSome {α β : Type} (f : α → Option β) (l : List α)
    (h : ∀ a ∈ l, (f a).isSome) : (l.mapM f).isSome := by
  induction l with
  | nil => rfl
  | cons a t ih =>
    obtain ⟨b, hb⟩ := Option.isSome_iff_exists.1 (h a (List.mem_cons_self a t))
    obtain ⟨bs, hbs⟩ :=
      Option.isSome_iff_exists.1 (ih fun x hx => h x (List.mem_cons_of_mem a hx))
    rw [List.mapM_cons]
    simp only [hb, hbs, Option.some_bind]
    rfl

theorem create_sphere_vertices_length (ops : RealOps) (radius : ℚ) (rings sectors : ℕ) :
    (Mesh.create_sphere ops radius rings sectors).vertices.length
      = (rings + 1) * (sectors + 1) := by
  simp only [Mesh.create_sphere]
  rw [length_flatMap_const _ _ (sectors + 1) ?_]
  · rw [List.length_range]
  · intro a _
    rw [List.length_map, List.length_range]

theorem sphere_index_bound {rings sectors i j v : ℕ} (hi : i < rings) (hj : j < sectors)
    (hv : v ≤ (i + 1) * (sectors + 1) + j + 1) : v < (rings + 1) * (sectors + 1) := by
  have h1 : (i + 1) * (sectors + 1) ≤ rings * (sectors + 1) :=
    Nat.mul_le_mul (by omega) (le_refl _)
  have h2 : (rings + 1) * (sectors + 1) = rings * (sectors + 1) + (sectors + 1) := by ring
  linarith

/-- C10: for rings, sectors >= 1, the sphere generator emits
`(rings+1)*(sectors+1)` vertices, every emitted index is strictly below
that vertex count (even accounting for `u32` wrapping, whose reductions
only shrink values), and the index count is a multiple of 3 - so the
fallback sphere satisfies the mesh index invariant rendering relies on. -/
theorem spec_C10_create_sphere_index_invariant (ops : RealOps) (radius : ℚ)
    (rings sectors : ℕ) (_hr : 1 ≤ rings) (_hs : 1 ≤ sectors) :
    (Mesh.create_sphere ops radius rings sectors).vertices.length
        = (rings + 1) * (sectors + 1) ∧
      (∀ idx ∈ (Mesh.create_sphere ops radius rings sectors).indices,
        idx < (Mesh.create_sphere ops radius rings sectors).vertices.length) ∧
      (Mesh.create_sphere ops radius rings sectors).indices.length % 3 = 0 := by
  refine ⟨create_sphere_vertices_length ops radius rings sectors, ?_, ?_⟩
  · intro idx hidx
    rw [create_sphere_vertices_length]
    simp only [Mesh.create_sphere] at hidx
    rw [List.mem_flatMap] at hidx
    obtain ⟨i, hi, hin⟩ := hidx
    rw [List.mem_range] at hi
    rw [List.mem_flatMap] at hin
    obtain ⟨j, hj, hmem⟩ := hin
    rw [List.mem_range] at hj
    rw [List.mem_append] at hmem
    have hii : i * (sectors + 1) ≤ (i + 1) * (sectors + 1) :=
      Nat.mul_le_mul (by omega) (le_refl _)
    have hk1 : u32Mod (i * u32Mod (sectors + 1)) ≤ i * (sectors + 1) :=
      le_trans (u32Mod_le _) (Nat.mul_le_mul (le_refl i) (u32Mod_le _))
    have hk2 : u32Mod (u32Mod (i * u32Mod (sectors + 1)) + sectors + 1)
        ≤ (i + 1) * (sectors + 1) := by
      have h3 := u32Mod_le (u32Mod (i * u32Mod (sectors + 1)) + sectors + 1)
      have h4 : (i + 1) * (sectors + 1) = i * (sectors + 1) + (sectors + 1) := by ring
      linarith
    rcases hmem with hmem | hmem <;>
      · split at hmem
        · simp only [List.mem_cons, List.not_mem_nil, or_false] at hmem
          rcases hmem with h | h | h <;> subst h <;>
            refine sphere_index_bound hi hj ?_ <;>
            have h5 := u32Mod_le (u32Mod (i * u32Mod (sectors + 1)) + j)
          all_goals
            first
            | (have h6 := u32Mod_le (u32Mod (i * u32Mod (sectors + 1)) + j + 1)
               linarith)
            | (have h6 := u32Mod_le
                (u32Mod (u32Mod (i * u32Mod (sectors + 1)) + sectors + 1) + j)
               linarith)
            | (have h6 := u32Mod_le
                (u32Mod (u32Mod (i * u32Mod (sectors + 1)) + sectors + 1) + j + 1)
               linarith)
        · simp at hmem
  · simp only [Mesh.create_sphere]
    apply flatMap_length_mod3
    intro i _
    apply flatMap_length_mod3
    intro j _
    rw [List.length_append]
    split <;> split <;> simp

/-- C10 witness: the sphere with rings = sectors = 2 has 9 vertices, all
twelve indices below 9, and an index count divisible by 3. -/
theorem spec_C10_create_sphere_index_invariant_witness :
    (Mesh.create_sphere opsZero 1 2 2).vertices.length = (2 + 1) * (2 + 1) ∧
      (∀ idx ∈ (Mesh.create_sphere opsZero 1 2 2).indices,
        idx < (Mesh.create_sphere opsZero 1 2 2).vertices.length) ∧
      (Mesh.create_sphere opsZero 1 2 2).indices.length % 3 = 0 :=
  spec_C10_create_sphere_index_invariant opsZero 1 2 2 (by decide) (by decide)

theorem length_flatMap_ge {α β : Type} (l : List α) (f : α → List β) (a : α)
    (ha : a ∈ l) : (f a).length ≤ (l.flatMap f).length := by
  induction l with
  | nil => cases ha
  | cons b t ih =>
    rw [List.flatMap_cons, List.length_append]
    rcases List.mem_cons.1 ha with h | h
    · subst h
      omega
    · have := ih h
      omega

/-- C7: when loading the mesh file fails, `Planet::new` does not propagate
the failure: the planet's mesh is exactly the default generated sphere
`create_sphere(1.0, 32, 32)`, whose vertex and index lists are non-empty. -/
theorem spec_C7_planet_new_fallback (ops : RealOps) (pt : PlanetType) (e : String) :
    (Planet.new ops pt (.error e)).mesh = Mesh.create_sphere ops 1 32 32 ∧
      0 < (Planet.new ops pt (.error e)).mesh.vertices.length ∧
      0 < (Planet.new ops pt (.error e)).mesh.indices.length := by
  have hm : (Planet.new ops pt (.error e)).mesh = Mesh.create_sphere ops 1 32 32 := rfl
  refine ⟨hm, ?_, ?_⟩
  · rw [hm, create_sphere_vertices_length]
    norm_num
  · rw [hm]
    have hops : (Mesh.create_sphere ops 1 32 32).indices
        = (Mesh.create_sphere opsZero 1 32 32).indices := rfl
    rw [hops]
    simp only [Mesh.create_sphere]
    refine lt_of_lt_of_le ?_ (length_flatMap_ge _ _ 1 (by decide))
    refine lt_of_lt_of_le ?_ (length_flatMap_ge _ _ 0 (by decide))
    decide

/-- C1 counterexample: the concrete mesh `badMesh` has index 5 with only
one vertex, and triangle assembly in `render_planet_software` hits an
out-of-range `Vec` index and panics (modelled as `none`) instead of
skipping the triangle - an out-of-range index is fatal. -/
theorem spec_C1_out_of_range_index_is_fatal :
    (¬ ∀ k ∈ badMesh.indices, k < badMesh.vertices.length) ∧
      render_fetch_triangles badMesh = none := by
  constructor
  · decide
  · decide

/-- C1 (amended): triangle assembly never panics exactly under the mesh
index invariant: when every index is below the vertex count and indices
come in complete triples, every fetch succeeds. -/
theorem spec_C1_render_fetch_safe_under_invariant (mesh : Mesh)
    (hidx : ∀ k ∈ mesh.indices, k < mesh.vertices.length)
    (h3 : mesh.indices.length % 3 = 0) :
    (render_fetch_triangles mesh).isSome := by
  unfold render_fetch_triangles
  apply mapM_option_isSome
  intro t ht
  rw [List.mem_range] at ht
  have h0 : 3 * t < mesh.indices.length := by omega
  have h1 : 3 * t + 1 < mesh.indices.length := by omega
  have h2 : 3 * t + 2 < mesh.indices.length := by omega
  simp only [List.getElem?_eq_getElem h0, List.getElem?_eq_getElem h1,
    List.getElem?_eq_getElem h2, Option.some_bind]
  have v0 : mesh.indices[3 * t] < mesh.vertices.length :=
    hidx _ (List.getElem_mem h0)
  have v1 : mesh.indices[3 * t + 1] < mesh.vertices.length :=
    hidx _ (List.getElem_mem h1)
  have v2 : mesh.indices[3 * t + 2] < mesh.vertices.length :=
    hidx _ (List.getElem_mem h2)
  simp only [List.getElem?_eq_getElem v0, List.getElem?_eq_getElem v1,
    List.getElem?_eq_getElem v2, Option.some_bind]
  rfl

/-- C1 amended-claim witness: the one-triangle `goodMesh` assembles
successfully. -/
theorem spec_C1_render_fetch_safe_under_invariant_witness :
    (render_fetch_triangles goodMesh).isSome :=
  spec_C1_render_fetch_safe_under_invariant goodMesh (by decide) (by decide)

/-- C9: the noise primitives, the rocky shader and the rasterizer are pure
functions of their numeric inputs - the embedding carries no state, mirroring
the source, whose noise functions and shaders read only their arguments -
so two evaluations on identical inputs are identical outputs. -/
theorem spec_C9_shading_deterministic (ops : RealOps) (x y : ℚ) (oct : ℕ)
    (v1 v2 v3 : TransformedVertex) (pos nrm : Vector3) (uv : ℚ × ℚ)
    (uni : ShaderUniforms) :
    simple_noise ops x y = simple_noise ops x y ∧
      fbm ops x y oct = fbm ops x y oct ∧
      voronoi_noise ops x y = voronoi_noise ops x y ∧
      ridge_noise ops x y oct = ridge_noise ops x y oct ∧
      RockyPlanetShader.vertex_shader ops pos nrm uv uni
        = RockyPlanetShader.vertex_shader ops pos nrm uv uni ∧
      RockyPlanetShader.fragment_shader ops pos nrm uv uni
        = RockyPlanetShader.fragment_shader ops pos nrm uv uni ∧
      triangle ops v1 v2 v3 = triangle ops v1 v2 v3 :=
  ⟨rfl, rfl, rfl, rfl, rfl, rfl, rfl⟩

end Planetas


